import Mathlib

/-!
# Verification of the ohmymsg content risk scoring core

Shallow embedding of the TypeScript sources of the ohmymsg repository
(src/idn-detector.ts, src/node-snowball.ts, src/mod.ts) together with
theorems settling the frozen specification claims.

Modelling conventions:
* TypeScript strings are modelled by Lean `String`, iterated as lists of
  Unicode code points.  All concrete inputs used below lie in the Basic
  Multilingual Plane, where JS UTF-16 code-unit indexing and code-point
  indexing coincide.
* JS `number` is modelled by `ℚ`.  Every quantity compared below is far
  from the binary rounding error of IEEE doubles, so the rational model
  and the double model agree on all stated comparisons.
* Fallible code is modelled with `Option`/`Except`; a `try/catch` that
  swallows the error becomes a `match` on the embedded result.
* External collaborators (file system, mail parser, language identifier,
  stemming tables, hash) are abstract parameters (oracles); the control
  flow around them is translated from the source.
-/

namespace OhMyMsg

/-- JS `String.prototype.toLowerCase` restricted to the alphabets that occur
in this code base: ASCII, Latin-1 letters, Latin Extended pairs used by the
tokenizer table, Greek and Cyrillic.  (Full Unicode lowercasing agrees with
this map on every string manipulated in the theorems below.) -/
def jsToLowerChar (c : Char) : Char :=
  let n := c.toNat
  if 0x41 ≤ n ∧ n ≤ 0x5A then Char.ofNat (n + 0x20)            -- A-Z
  else if 0xC0 ≤ n ∧ n ≤ 0xDE ∧ n ≠ 0xD7 then Char.ofNat (n + 0x20) -- Latin-1
  else if 0x410 ≤ n ∧ n ≤ 0x42F then Char.ofNat (n + 0x20)     -- Cyrillic А-Я
  else if n = 0x401 then Char.ofNat 0x451                      -- Ё
  else if 0x391 ≤ n ∧ n ≤ 0x3A9 ∧ n ≠ 0x3A2 then Char.ofNat (n + 0x20) -- Greek
  else if (0x100 ≤ n ∧ n ≤ 0x17F ∧ n % 2 = 0) then Char.ofNat (n + 1)  -- Latin Ext-A pairs
  else if (0x1EA0 ≤ n ∧ n ≤ 0x1EF9 ∧ n % 2 = 0) then Char.ofNat (n + 1) -- Vietnamese pairs
  else c

/-- Lowercase an entire string (JS `toLowerCase`). -/
def jsToLower (s : String) : String :=
  String.mk (s.toList.map jsToLowerChar)

/-- Does `hay` start with `needle`?  (helper for substring search) -/
def charsStartWith : List Char → List Char → Bool
  | [], _ => true
  | _ :: _, [] => false
  | n :: ns, h :: hs => n = h && charsStartWith ns hs

/-- Does `hay` contain `needle` as a contiguous substring?
Models JS `String.prototype.includes`. -/
def charsContain (needle : List Char) : List Char → Bool
  | [] => charsStartWith needle []
  | h :: hs => charsStartWith needle (h :: hs) || charsContain needle hs

/-- JS `a.includes(b)` on strings. -/
def jsIncludes (hay needle : String) : Bool :=
  charsContain needle.toList hay.toList

/-- JS `Array.prototype.map` over a callback that can throw: the first
exception aborts the whole map. -/
def exceptMapList {α β ε : Type} (f : α → Except ε β) : List α → Except ε (List β)
  | [] => .ok []
  | a :: as =>
      match f a with
      | .ok b =>
          match exceptMapList f as with
          | .ok bs => .ok (b :: bs)
          | .error e => .error e
      | .error e => .error e

/-- Search for `needle` in `hay`; on success return the suffix of `hay`
after the first (leftmost) occurrence.  Helper for the regex model. -/
def findSubAfter (needle : List Char) : List Char → Option (List Char)
  | [] => if charsStartWith needle [] then some [] else none
  | h :: hs =>
      if charsStartWith needle (h :: hs) then some (List.drop needle.length (h :: hs))
      else findSubAfter needle hs

end OhMyMsg

namespace IDN

open OhMyMsg

/-! ## src/idn-detector.ts -/

/-- The `CONFUSABLE_CHARS`: Unicode confusable character mappings, transcribed
entry by entry from src/idn-detector.ts (a JS Map; the duplicate "ℯ" entry
collapses as in a JS Map literal). -/
def CONFUSABLE_CHARS : List (Char × String) :=
  [ -- Cyrillic to Latin confusables
    ('а', "a"), ('е', "e"), ('о', "o"), ('р', "p"), ('с', "c"), ('х', "x"), ('у', "y"),
    ('А', "A"), ('В', "B"), ('Е', "E"), ('К', "K"), ('М', "M"), ('Н', "H"), ('О', "O"),
    ('Р', "P"), ('С', "C"), ('Т', "T"), ('Х', "X"), ('У', "Y"),
    -- Greek to Latin confusables
    ('α', "a"), ('ο', "o"), ('ρ', "p"), ('υ', "u"), ('ν', "v"), ('ι', "i"),
    ('Α', "A"), ('Β', "B"), ('Ε', "E"), ('Ζ', "Z"), ('Η', "H"), ('Ι', "I"), ('Κ', "K"),
    ('Μ', "M"), ('Ν', "N"), ('Ο', "O"), ('Ρ', "P"), ('Τ', "T"), ('Υ', "Y"),
    -- Mathematical symbols
    ('𝐚', "a"), ('𝐛', "b"), ('𝐜', "c"), ('𝐝', "d"), ('𝐞', "e"),
    ('𝟎', "0"), ('𝟏', "1"), ('𝟐', "2"), ('𝟑', "3"), ('𝟒', "4"),
    -- Other common confusables
    ('ℯ', "e"), ('ℊ', "g"), ('ℎ', "h"), ('ℓ', "l"), ('ℴ', "o"),
    ('ⅰ', "i"), ('ⅱ', "ii"), ('ⅲ', "iii"), ('ⅳ', "iv"), ('ⅴ', "v") ]

/-- Map lookup on `CONFUSABLE_CHARS` (JS `Map.get` / `Map.has`). -/
def confusableLookup (c : Char) : Option String :=
  (CONFUSABLE_CHARS.find? (fun p => p.1 = c)).map (·.2)

/-- The `LEGITIMATE_IDN_DOMAINS`: whitelist of known legitimate international
domains, from src/idn-detector.ts. -/
def LEGITIMATE_IDN_DOMAINS : List String :=
  [ "xn--fsq.xn--0zwm56d", "xn--fiqs8s", "xn--fiqz9s",
    "xn--j6w193g", "xn--55qx5d", "xn--io0a7i" ]

/-- The `POPULAR_BRANDS`: popular brand domains for comparison. -/
def POPULAR_BRANDS : List String :=
  [ "google", "facebook", "amazon", "apple", "microsoft", "twitter", "instagram",
    "linkedin", "youtube", "netflix", "paypal", "ebay", "yahoo", "adobe",
    "salesforce", "oracle", "ibm", "cisco", "intel", "nvidia", "tesla",
    "citibank", "bankofamerica", "wellsfargo", "chase", "americanexpress" ]

/-- The `SUSPICIOUS_PATTERNS`: each case-insensitive regex `/w1.*w2/i` is encoded
as its list of literal fragments separated by `.*`; paired with the regex
`source` text used in risk-factor messages. -/
def SUSPICIOUS_PATTERNS : List (List String × String) :=
  [ (["urgent"], "urgent"),
    (["verify", "account"], "verify.*account"),
    (["suspended"], "suspended"),
    (["click", "here"], "click.*here"),
    (["limited", "time"], "limited.*time"),
    (["act", "now"], "act.*now"),
    (["confirm", "identity"], "confirm.*identity") ]

/-- JS regex `.` does not match line terminators; split content at them. -/
def isLineTerminator (c : Char) : Bool :=
  c = '\n' || c = '\r' || c.toNat = 0x2028 || c.toNat = 0x2029

/-- Split a character list at line terminators (segments in which `.*` may
match). -/
def splitSegments (cs : List Char) : List (List Char) :=
  let step := fun (c : Char) (acc : List (List Char)) =>
    match acc with
    | [] => if isLineTerminator c then [[], []] else [[c]]
    | seg :: rest => if isLineTerminator c then [] :: seg :: rest else (c :: seg) :: rest
  cs.foldr step [[]]

/-- Match a sequence of literal fragments separated by `.*` inside one
segment, leftmost-first (complete for literal-only patterns). -/
def matchFragments : List (List Char) → List Char → Bool
  | [], _ => true
  | w :: ws, seg =>
      match findSubAfter w seg with
      | some rest => matchFragments ws rest
      | none => false

/-- The `pattern.test(content)` for the encoded case-insensitive patterns. -/
def testSuspicious (fragments : List String) (content : String) : Bool :=
  (splitSegments (jsToLower content).toList).any
    (fun seg => matchFragments (fragments.map (fun w => w.toList)) seg)

/-- The `NON_ASCII_REGEX.test(domain)`: some code point outside U+0000..U+007F. -/
def hasNonAscii (s : String) : Bool :=
  s.toList.any (fun c => 0x7F < c.toNat)

/-- The `TLD_REGEX` replacement: strip one trailing `.com|.org|.net|.edu|.gov`. -/
def stripCommonTld (s : String) : String :=
  let cs := s.toList
  let suffixes := [".com", ".org", ".net", ".edu", ".gov"]
  match suffixes.find? (fun t => charsStartWith (t.toList.reverse) cs.reverse) with
  | some t => String.mk (cs.take (cs.length - t.length))
  | none => s

end IDN

namespace IDN

open OhMyMsg

/-- Analysis context (`IDNContext` in src/idn-detector.ts).  The
`emailHeaders` field is never read by any analysis step and is omitted. -/
structure IDNContext where
  emailContent : Option String := none
  displayText : Option String := none
  senderReputation : Option ℚ := none
deriving Repr, DecidableEq

/-- Result record of `detectHomographAttack` (`IDNAnalysis`). -/
structure IDNAnalysis where
  domain : String
  isIDN : Bool
  riskScore : ℚ
  riskFactors : List String
  recommendations : List String
  confidence : ℚ
deriving Repr, DecidableEq

/-- Per-step result (`AnalysisResult`). -/
structure AnalysisResult where
  score : ℚ
  factors : List String
deriving Repr, DecidableEq

/-- Detector options (`IDNDetectorOptions`). -/
structure IDNDetectorOptions where
  strictMode : Bool := false
  enableWhitelist : Bool := true
  enableBrandProtection : Bool := true
  enableContextAnalysis : Bool := true
  maxSimilarityThreshold : ℚ := 4/5
  minDomainAge : ℚ := 30
deriving Repr, DecidableEq

/-- The options of the detector instantiated by `SpamScanner.getIDNDetector`
in src/mod.ts (all three enable flags set, remaining fields from the
constructor defaults). -/
def scannerIDNOptions : IDNDetectorOptions := {}

/-- The `isIDNDomain`: punycode marker or any non-ASCII code point. -/
def isIDNDomain (domain : String) : Bool :=
  jsIncludes domain "xn--" || hasNonAscii domain

/-- The `isWhitelisted`: lowercase membership in `LEGITIMATE_IDN_DOMAINS`. -/
def isWhitelisted (domain : String) : Bool :=
  LEGITIMATE_IDN_DOMAINS.contains (jsToLower domain)

/-- Inner loop of the dynamic-programming Levenshtein computation of
`calculateSimilarity`: given the previous matrix row and the cell to the
left, produce the rest of the current row. -/
def levGo (tc : Char) : List Char → List Nat → Nat → List Nat
  | [], _, _ => []
  | sc :: ss, r0 :: r1 :: rs, left =>
      let cur := if sc = tc then r0 else 1 + min r0 (min r1 left)
      cur :: levGo tc ss (r1 :: rs) cur
  | _ :: _, _, _ => []

/-- One row update of the Levenshtein matrix (row `i` from row `i-1`). -/
def levStep (s : List Char) (tc : Char) (row : List Nat) : List Nat :=
  let first := row.headD 0 + 1
  first :: levGo tc s row first

/-- Levenshtein distance, row-by-row as in
`EnhancedIDNDetector.calculateSimilarity` (rows indexed by `string2`,
columns by `string1`). -/
def levenshtein (s t : List Char) : Nat :=
  (t.foldl (fun row tc => levStep s tc row) (List.range (s.length + 1))).getLastD 0

/-- The `calculateSimilarity`: normalized edit-distance similarity. -/
def calculateSimilarity (string1 string2 : String) : ℚ :=
  let length1 := string1.toList.length
  let length2 := string2.toList.length
  if length1 = 0 then (if length2 = 0 then 1 else 0)
  else if length2 = 0 then 0
  else
    let maxLength := max length1 length2
    let finalValue := levenshtein string1.toList string2.toList
    ((maxLength : ℚ) - finalValue) / maxLength

/-- The `analyzeConfusableCharacters`: count confusable code points, record one
factor per hit, then score `min(0.8 * ratio, 0.6)` plus a summary factor. -/
def analyzeConfusableCharacters (domain : String) : AnalysisResult :=
  let cs := domain.toList
  let totalChars := cs.length
  let confusables := cs.filterMap (fun c => (confusableLookup c).map (fun l => (c, l)))
  let confusableCount := confusables.length
  let factors := confusables.map
    (fun p => "Confusable character: " ++ String.mk [p.1] ++ " → " ++ p.2)
  if 0 < confusableCount then
    let ratio : ℚ := (confusableCount : ℚ) / (totalChars : ℚ)
    { score := min (ratio * (4/5)) (3/5),
      factors := factors ++
        [toString confusableCount ++ "/" ++ toString totalChars ++ " characters are confusable"] }
  else
    { score := 0, factors := factors }

/-- JS `Number.prototype.toFixed(1)` (round to one decimal).  Only the shape
of the produced risk-factor string depends on this; no theorem inspects it. -/
def toFixed1 (q : ℚ) : String :=
  let scaled : ℤ := ⌊q * 10 + 1/2⌋
  toString (scaled / 10) ++ "." ++ toString (scaled % 10)

/-- The `normalizeDomain`: lowercase, fold confusables to Latin (sequential
`replaceAll` over the map entries), strip one common TLD suffix. -/
def normalizeDomain (domain : String) : String :=
  let lowered := (jsToLower domain).toList
  let replaced := CONFUSABLE_CHARS.foldl
    (fun acc p => acc.flatMap (fun c => if c = p.1 then p.2.toList else [c])) lowered
  stripCommonTld (String.mk replaced)

/-- Loop body of `analyzeBrandSimilarity` for one brand: above-threshold
similarity keeps the maximum `similarity * 0.7` and records a factor. -/
def brandStep (thr : ℚ) (cleanDomain : String) (acc : AnalysisResult)
    (brand : String) : AnalysisResult :=
  let similarity := calculateSimilarity cleanDomain brand
  if thr < similarity then
    { score := max acc.score (similarity * (7/10)),
      factors := acc.factors ++
        ["High similarity to " ++ brand ++ ": " ++ toFixed1 (similarity * 100) ++ "%"] }
  else acc

/-- The `analyzeBrandSimilarity`: fold `brandStep` over the popular brands with
the (truthiness-defaulted) similarity threshold. -/
def analyzeBrandSimilarity (opts : IDNDetectorOptions) (domain : String) : AnalysisResult :=
  let cleanDomain := normalizeDomain domain
  let thr := if opts.maxSimilarityThreshold = 0 then (4/5 : ℚ) else opts.maxSimilarityThreshold
  POPULAR_BRANDS.foldl (brandStep thr cleanDomain) { score := 0, factors := [] }

/-- The `detectScripts` character classification by Unicode range. -/
def scriptOf (c : Char) : Option String :=
  let code := c.toNat
  if (0x41 ≤ code ∧ code ≤ 0x5A) ∨ (0x61 ≤ code ∧ code ≤ 0x7A) then some "Latin"
  else if 0x400 ≤ code ∧ code ≤ 0x4FF then some "Cyrillic"
  else if 0x370 ≤ code ∧ code ≤ 0x3FF then some "Greek"
  else if 0x4E00 ≤ code ∧ code ≤ 0x9FFF then some "CJK"
  else if 0x590 ≤ code ∧ code ≤ 0x5FF then some "Hebrew"
  else if 0x600 ≤ code ∧ code ≤ 0x6FF then some "Arabic"
  else none

/-- The `detectScripts`: insertion-ordered set of scripts present. -/
def detectScripts (domain : String) : List String :=
  (domain.toList.filterMap scriptOf).foldl
    (fun acc s => if acc.contains s then acc else acc ++ [s]) []

/-- The `analyzeScriptMixing`: +0.4 for Latin with Cyrillic or Greek, else +0.2
for any other mixture. -/
def analyzeScriptMixing (domain : String) : AnalysisResult :=
  let scripts := detectScripts domain
  if 1 < scripts.length then
    let scriptList := String.intercalate ", " scripts
    if scripts.contains "Latin" && (scripts.contains "Cyrillic" || scripts.contains "Greek") then
      { score := 2/5,
        factors := ["Mixed scripts detected: " ++ scriptList,
                    "Suspicious Latin/Cyrillic or Latin/Greek mixing"] }
    else
      { score := 1/5, factors := ["Mixed scripts detected: " ++ scriptList] }
  else { score := 0, factors := [] }

/-- Loop body of the suspicious-pattern scan of `analyzeContext`: +0.1 and
a factor per matching pattern. -/
def suspiciousPatternStep (content : String) (acc : AnalysisResult)
    (pat : List String × String) : AnalysisResult :=
  if testSuspicious pat.1 content then
    { score := acc.score + 1/10,
      factors := acc.factors ++ ["Suspicious email pattern: " ++ pat.2] }
  else acc

/-- The `analyzeContext`: display-text mismatch (+0.3), low sender reputation
(+0.2) and suspicious phrase patterns (+0.1 each).  The JS truthiness
guards are translated literally: an empty display string and a zero
reputation are falsy and skip their additions. -/
def analyzeContext (domain : String) (context : IDNContext) : AnalysisResult :=
  let a0 : AnalysisResult := { score := 0, factors := [] }
  let displayDiffers :=
    match context.displayText with
    | some dt => !(dt == "") && !(dt == domain)
    | none => false
  let a1 := if displayDiffers then
      { score := a0.score + 3/10,
        factors := a0.factors ++ ["Display text differs from actual domain"] }
    else a0
  let lowReputation :=
    match context.senderReputation with
    | some r => !(r == 0) && decide (r < 1/2)
    | none => false
  let a2 := if lowReputation then
      { score := a1.score + 1/5, factors := a1.factors ++ ["Low sender reputation"] }
    else a1
  match context.emailContent with
  | some content =>
      if content ≠ "" then
        SUSPICIOUS_PATTERNS.foldl (suspiciousPatternStep content) a2
      else a2
  | none => a2

/-- The `s` consists of ASCII code points only. -/
def isAsciiString (s : String) : Bool :=
  s.toList.all (fun c => c.toNat ≤ 0x7F)

/-- Models `new URL("http://" ++ domain).hostname` as used by
`decodePunycode` in src/idn-detector.ts.  The WHATWG URL parser serializes
hosts in their ASCII (IDNA/punycode) form: for a host that is already
ASCII the result is the host lowercased — in particular a punycode label
like `xn--80ak6aa92e` is returned verbatim, NOT decoded to Unicode.  A
non-ASCII host would be converted *to* punycode; no theorem below
exercises that branch and it is modelled as the identity. -/
def urlHostSerialization (domain : String) : String :=
  if isAsciiString domain then jsToLower domain else domain

/-- The `decodePunycode`: despite its name, returns the URL host serialization
(its internal `try/catch` falls back to the input on a parse error, which
no input below triggers). -/
def decodePunycode (domain : String) : String :=
  urlHostSerialization domain

/-- The `analyzePunycode`: record the "decoded" form and re-run the confusable
analysis over it, scaled by 0.8.  The `catch` branch of the source (+0.2,
"Invalid punycode encoding") is unreachable because `decodePunycode`
swallows its own errors. -/
def analyzePunycode (domain : String) : AnalysisResult :=
  let decoded := decodePunycode domain
  let decodedAnalysis := analyzeConfusableCharacters decoded
  { score := decodedAnalysis.score * (4/5),
    factors := ("Punycode decoded: " ++ decoded) :: decodedAnalysis.factors }

/-- The `generateRecommendations`: fixed risk-score bands plus IDN and brand
add-ons. -/
def generateRecommendations (analysis : IDNAnalysis) : List String :=
  let recs :=
    if 4/5 < analysis.riskScore then
      ["HIGH RISK: Likely homograph attack - block or quarantine"]
    else if 3/5 < analysis.riskScore then
      ["MEDIUM RISK: Suspicious domain - flag for review"]
    else if 3/10 < analysis.riskScore then
      ["LOW RISK: Monitor domain activity"]
    else
      ["SAFE: Domain appears legitimate"]
  let recs := if analysis.isIDN then
      recs ++ ["Consider displaying punycode representation to users"]
    else recs
  if analysis.riskFactors.any (fun f => jsIncludes f "brand") then
    recs ++ ["Verify domain authenticity through official channels"]
  else recs

/-- The `analyzeComprehensive`: the whole analysis pass, accumulating the step
scores and factors in source order, then `confidence = min(riskScore, 1)`
and recommendations. -/
def analyzeComprehensive (opts : IDNDetectorOptions) (domain : String)
    (context : IDNContext) : IDNAnalysis :=
  let isIDN := isIDNDomain domain
  if opts.enableWhitelist && isWhitelisted domain then
    { domain := domain, isIDN := isIDN, riskScore := 0, riskFactors := [],
      recommendations := ["Domain is whitelisted as legitimate"], confidence := 1 }
  else
    let base : ℚ × List String :=
      if isIDN then (3/10, ["Contains non-ASCII characters"]) else (0, [])
    let ca := analyzeConfusableCharacters domain
    let acc1 : ℚ × List String := (base.1 + ca.score, base.2 ++ ca.factors)
    let acc2 : ℚ × List String :=
      if opts.enableBrandProtection then
        let ba := analyzeBrandSimilarity opts domain
        (acc1.1 + ba.score, acc1.2 ++ ba.factors)
      else acc1
    let sm := analyzeScriptMixing domain
    let acc3 : ℚ × List String := (acc2.1 + sm.score, acc2.2 ++ sm.factors)
    let acc4 : ℚ × List String :=
      if opts.enableContextAnalysis then
        let cx := analyzeContext domain context
        (acc3.1 + cx.score, acc3.2 ++ cx.factors)
      else acc3
    let acc5 : ℚ × List String :=
      if jsIncludes domain "xn--" then
        let pa := analyzePunycode domain
        (acc4.1 + pa.score, acc4.2 ++ pa.factors)
      else acc4
    let pre : IDNAnalysis :=
      { domain := domain, isIDN := isIDN, riskScore := acc5.1, riskFactors := acc5.2,
        recommendations := [], confidence := min acc5.1 1 }
    { pre with recommendations := generateRecommendations pre }

/-- The `detectHomographAttack`: the public entry point.  The per-instance cache
memoizes `analyzeComprehensive` keyed by `(domain, md5(context))`; since the
analysis is pure, a cache hit returns the identical record, so a single
call is exactly `analyzeComprehensive`. -/
def detectHomographAttack (opts : IDNDetectorOptions) (domain : String)
    (context : IDNContext) : IDNAnalysis :=
  analyzeComprehensive opts domain context

end IDN

namespace Snowball

open OhMyMsg

/-! ## src/node-snowball.ts -/

/-- The distinct stemmer objects of `natural` referenced by `LANGUAGE_MAP`. -/
inductive StemmerAlg
  | porter | porterEs | porterFr | porterDe | porterIt | porterPt | porterNl
  | porterUk | porterNo | porterSv | porterFa | stemmerJa | stemmerId
deriving Repr, DecidableEq

/-- The `LANGUAGE_MAP`: language code / name to stemmer, transcribed from
src/node-snowball.ts (the languages without a dedicated stemmer fall back
to the English Porter stemmer). -/
def LANGUAGE_MAP : List (String × StemmerAlg) :=
  [ ("en", .porter), ("english", .porter),
    ("es", .porterEs), ("spanish", .porterEs),
    ("fr", .porterFr), ("french", .porterFr),
    ("de", .porterDe), ("german", .porterDe),
    ("it", .porterIt), ("italian", .porterIt),
    ("pt", .porterPt), ("portuguese", .porterPt),
    ("nl", .porterNl), ("dutch", .porterNl),
    ("uk", .porterUk), ("ukrainian", .porterUk),
    ("no", .porterNo), ("norwegian", .porterNo),
    ("sv", .porterSv), ("swedish", .porterSv),
    ("fa", .porterFa), ("persian", .porterFa),
    ("ja", .stemmerJa), ("japanese", .stemmerJa),
    ("id", .stemmerId), ("indonesian", .stemmerId),
    ("ar", .porter), ("arabic", .porter), ("hy", .porter), ("armenian", .porter),
    ("eu", .porter), ("basque", .porter), ("ca", .porter), ("catalan", .porter),
    ("da", .porter), ("danish", .porter), ("fi", .porter), ("finnish", .porter),
    ("el", .porter), ("greek", .porter), ("hi", .porter), ("hindi", .porter),
    ("hu", .porter), ("hungarian", .porter), ("ga", .porter), ("irish", .porter),
    ("lt", .porter), ("lithuanian", .porter), ("ne", .porter), ("nepali", .porter),
    ("ro", .porter), ("romanian", .porter), ("sr", .porter), ("serbian", .porter),
    ("ta", .porter), ("tamil", .porter), ("tr", .porter), ("turkish", .porter),
    ("yi", .porter), ("yiddish", .porter), ("porter", .porter) ]

/-- The `getStemmer`: case-normalized lookup in `LANGUAGE_MAP`. -/
def getStemmer (language : String) : Option StemmerAlg :=
  (LANGUAGE_MAP.find? (fun p => p.1 = jsToLower language)).map (·.2)

/-- The `isLanguageSupported`: the normalized language is a key of the map
(the JS `in` test agrees with a lookup because no mapped value is falsy). -/
def isLanguageSupported (language : String) : Bool :=
  (LANGUAGE_MAP.find? (fun p => p.1 = jsToLower language)).isSome

/-- The two failure modes of `stemWord`: the typed
`UnavailableAlgorithmError` for an unregistered language, or an error
escaping the underlying stemmer call. -/
inductive StemError
  | unavailableAlgorithm (language : String)
  | stemFailure
deriving Repr, DecidableEq

/-- The loaded stemming tables: `stemmer.stem` as a pure oracle;
`Except.error` models a throwing stemmer call. -/
structure StemEnv where
  stem : StemmerAlg → String → Except Unit String

/-- The `stemWord` from src/node-snowball.ts.  The guard
`!word || typeof word !== "string"` reduces to the empty-string test in a
typed setting: an empty word is returned unchanged without consulting the
registry.  The `encoding` parameter is ignored by the source and omitted. -/
def stemWord (env : StemEnv) (word : String) (language : String)
    (fallbackToOriginal : Bool) : Except StemError String :=
  if word = "" then .ok word
  else
    match getStemmer language with
    | none =>
        if fallbackToOriginal then .ok word
        else .error (.unavailableAlgorithm language)
    | some alg =>
        match env.stem alg word with
        | .ok s => .ok s
        | .error _ => if fallbackToOriginal then .ok word else .error .stemFailure

/-- The `stemword` (the original node-snowball API) on an array input:
each word is stemmed with the default `fallbackToOriginal = true`. -/
def stemword (env : StemEnv) (input : List String)
    (language : String) : Except StemError (List String) :=
  exceptMapList (fun w => stemWord env w language true) input

/-- The `StemmerConfig` (the `encoding` member is ignored by `stemWord`). -/
structure StemmerConfig where
  language : String
  fallbackToOriginal : Bool := true

/-- The `stemwordAdvanced` on an array input: `input.map(...)` raises at the
first word whose stemming throws, which `exceptMapList` models. -/
def stemwordAdvanced (env : StemEnv) (input : List String)
    (config : StemmerConfig) : Except StemError (List String) :=
  exceptMapList (fun w => stemWord env w config.language config.fallbackToOriginal) input

/-- The `SpamScanner.getEnhancedStemming` from src/mod.ts: empty token lists
short-circuit, unsupported locales return the tokens unchanged *before*
any stemming (regardless of `fallbackToOriginal`), and any error raised by
the stemming call is caught and mapped to the original tokens or `[]`
according to `fallbackToOriginal`. -/
def getEnhancedStemming (env : StemEnv) (tokens : List String) (locale : String)
    (fallbackToOriginal : Bool) (useAdvancedStemming : Bool) : List String :=
  if tokens = [] then []
  else if !(isLanguageSupported locale) then tokens
  else
    let attempt :=
      if useAdvancedStemming then
        stemwordAdvanced env tokens
          { language := locale, fallbackToOriginal := fallbackToOriginal }
      else
        stemword env tokens locale
    match attempt with
    | .ok r => r
    | .error _ => if fallbackToOriginal then tokens else []

end Snowball

namespace Tokenizer

open OhMyMsg

/-! ## The tokenization pipeline of `SpamScanner.getTokens` (src/mod.ts) -/

/-- Membership in the character class complement of `GENERIC_TOKENIZER`
(the "word characters"), including its `/i` case closure: ASCII letters,
digits, hyphen, the Latin-1 letter ranges written `à-ú`/`À-Ú` (taken
literally as code-point ranges, so `×` and `÷` are included), `ü`/`û`/`ý`
and their capitals, Cyrillic `а-я`/`ё`, the Vietnamese precomposed block,
and the enumerated Latin Extended letters. -/
def isTokenChar (c : Char) : Bool :=
  let n := c.toNat
  (0x61 ≤ n && n ≤ 0x7A) || (0x41 ≤ n && n ≤ 0x5A) || (0x30 ≤ n && n ≤ 0x39) ||
  n = 0x2D ||
  (0xC0 ≤ n && n ≤ 0xDA) || (0xE0 ≤ n && n ≤ 0xFA) ||
  n = 0xDB || n = 0xDC || n = 0xDD || n = 0xFB || n = 0xFC || n = 0xFD ||
  (0x410 ≤ n && n ≤ 0x44F) || n = 0x401 || n = 0x451 ||
  (0x1EA0 ≤ n && n ≤ 0x1EF9) ||
  [0x102, 0x103, 0x110, 0x111, 0x128, 0x129, 0x168, 0x169, 0x1A0, 0x1A1,
   0x1AF, 0x1B0, 0x152, 0x153, 0x104, 0x105, 0x106, 0x107, 0x118, 0x119,
   0x141, 0x142, 0x143, 0x144, 0x15A, 0x15B, 0x179, 0x17A, 0x17B, 0x17C].contains n

/-- JS `\s` (and `String.prototype.trim`) white space and line terminators. -/
def isJsWhitespace (c : Char) : Bool :=
  let n := c.toNat
  n = 0x9 || n = 0xA || n = 0xB || n = 0xC || n = 0xD || n = 0x20 || n = 0xA0 ||
  n = 0x1680 || (0x2000 ≤ n && n ≤ 0x200A) || n = 0x2028 || n = 0x2029 ||
  n = 0x202F || n = 0x205F || n = 0x3000 || n = 0xFEFF

/-- The `String.prototype.trim`. -/
def jsTrim (s : String) : String :=
  String.mk (((s.toList.dropWhile isJsWhitespace).reverse.dropWhile isJsWhitespace).reverse)

/-- The `is-string-and-not-blank`: a string whose trim is nonempty. -/
def isSANB (s : String) : Bool :=
  !(jsTrim s == "")

/-- JS `string.split(regex)` for a regex matching maximal nonempty runs of
characters failing `p`: the list of (possibly empty boundary) segments of
`p`-characters between separator runs. -/
def tokenSegments (p : Char → Bool) : List Char → List (List Char)
  | [] => [[]]
  | c :: cs =>
      let rest := tokenSegments p cs
      if p c then
        match rest with
        | [] => [[c]]
        | seg :: segs => (c :: seg) :: segs
      else
        match cs with
        | [] => [] :: rest
        | c2 :: _ => if p c2 then [] :: rest else rest

/-- The `localeMap` of `parseLocale` (the `zh-cn`/`zh-tw` keys are dead: the
lookup argument never contains a hyphen). -/
def localeAliasMap : List (String × String) :=
  [("nb", "no"), ("nn", "no"), ("zh-cn", "zh"), ("zh-tw", "zh")]

/-- The `SpamScanner.parseLocale`: lowercase, take the part before the first
hyphen, apply the alias map. -/
def parseLocale (locale : String) : String :=
  if locale = "" then "en"
  else
    let normalized := ((jsToLower locale).splitOn "-").headD "en"
    ((localeAliasMap.find? (fun p => p.1 = normalized)).map (·.2)).getD normalized

/-- The locale list excluded from advanced stemming
(`isAdvancedStemmingSupported` in src/mod.ts). -/
def advancedStemmingExclusions : List String :=
  ["ar", "hy", "eu", "ca", "da", "fi", "el", "hi", "hu", "ga", "lt", "ne",
   "ro", "sr", "ta", "tr", "yi"]

/-- The `SpamScanner.isAdvancedStemmingSupported`. -/
def isAdvancedStemmingSupported (locale : String) : Bool :=
  Snowball.isLanguageSupported locale && !(advancedStemmingExclusions.contains locale)

/-- The external collaborators consulted by `getTokens`, as fixed tables /
oracles: markup stripping, the `lande` language identifier (`none` models a
throwing call; the returned labels are the first components of its ranked
pairs), width folding, contraction expansion (`none` models a throwing
call), the union stop-word sets of `stopwordsMap`, the stemmer tables and
the token hash. -/
structure TokenizerEnv where
  striptags : String → String
  lande : String → Option (List String)
  toHalfWidth : String → String
  expandContractions : String → Option String
  stopwords : String → Option (List String)
  stemEnv : Snowball.StemEnv
  sha256hex16 : String → String

/-- The `SpamScanner` configuration fields read by `getTokens`, with the
constructor defaults of src/mod.ts. -/
structure TokenizerConfig where
  enableMixedLanguageDetection : Bool := false
  enableAdvancedStemming : Bool := false
  stemmingFallbackToOriginal : Option Bool := some true
  hashTokens : Bool := false
deriving Repr, DecidableEq

/-- The `SpamScanner.getTokens`: the full tokenization pipeline, translated
step for step from src/mod.ts.  Token length bounds are counted in code
points (the JS code counts UTF-16 units; they agree on the BMP). -/
def getTokens (env : TokenizerEnv) (cfg : TokenizerConfig) (string_ : String)
    (locale : String) (isHtml : Bool) : List String :=
  if !(isSANB string_) then []
  else
    let text := if isHtml then env.striptags string_ else string_
    let locale :=
      if locale == "" || cfg.enableMixedLanguageDetection then
        match env.lande text with
        | some (l :: _) => l
        | some [] => locale
        | none => if locale = "" then "en" else locale
      else locale
    let locale := parseLocale locale
    let text := env.toHalfWidth text
    let text :=
      match env.expandContractions text with
      | some t => t
      | none => text
    let tokens :=
      if locale == "ja" || locale == "zh" then
        (tokenSegments (fun c => !(isJsWhitespace c)) text.toList).map String.mk
      else
        (tokenSegments isTokenChar text.toList).map String.mk
    let processed := (tokens.map (fun t => jsTrim (jsToLower t))).filter
      (fun t => decide (0 < t.toList.length) && decide (t.toList.length ≤ 50))
    let processed :=
      match (env.stopwords locale).orElse (fun _ => env.stopwords "en") with
      | some stopwordSet => processed.filter (fun t => !(stopwordSet.contains t))
      | none => processed
    let processed :=
      if Snowball.isLanguageSupported locale then
        let useAdvancedStemming :=
          cfg.enableAdvancedStemming && isAdvancedStemmingSupported locale
        Snowball.getEnhancedStemming env.stemEnv processed locale
          (cfg.stemmingFallbackToOriginal.getD true) useAdvancedStemming
      else processed
    if cfg.hashTokens then processed.map env.sha256hex16 else processed

/-- A concrete environment used by witnesses: identity collaborators, an
English-reporting language identifier, no stop-word tables, an
identity stemmer. -/
def idEnv : TokenizerEnv where
  striptags := id
  lande := fun _ => some ["en"]
  toHalfWidth := id
  expandContractions := fun t => some t
  stopwords := fun _ => none
  stemEnv := { stem := fun _ w => .ok w }
  sha256hex16 := fun _ => ""

/-- A second language identifier differing from the one in `idEnv`. -/
def altLande : String → Option (List String) :=
  fun _ => some ["fr"]

end Tokenizer

namespace Scanner

open OhMyMsg

/-! ## `SpamScanner.scan` verdict composition and IDN aggregation
(src/mod.ts) -/

/-- The `filePathDetection` configuration values. -/
inductive FilePathDetectionMode
  | off | benign | strict
deriving Repr, DecidableEq

/-- Classification detector output (`getClassification`). -/
structure Classification where
  category : String
  probability : ℚ
deriving Repr, DecidableEq

/-- One entry of `results.patterns` (`getPatternResults`). -/
structure PatternFinding where
  type : String
  subtype : Option String := none
  count : Option Nat := none
  path : Option String := none
  description : String
deriving Repr, DecidableEq

/-- One entry of the `domains` list of the IDN aggregate result. -/
structure IDNDomainEntry where
  domain : String
  originalUrl : String
  normalizedUrl : String
  riskScore : ℚ
  riskFactors : List String
  recommendations : List String
  confidence : ℚ
deriving Repr, DecidableEq

/-- The `idnHomographAttack` sub-result of a scan
(`getIDNHomographResults`). -/
structure IDNAggregateResult where
  detected : Bool
  domains : List IDNDomainEntry
  riskScore : ℚ
  details : List String
deriving Repr, DecidableEq

/-- The per-URL data reaching the risk-aggregation loop of
`getIDNHomographResults`: `none` models a URL whose
normalization/`new URL` parsing threw, or whose hostname was empty (the
`catch` and `continue` paths); `some` carries the hostname, the original
and normalized URL and the analysis returned by `detectHomographAttack`. -/
structure UrlAnalysis where
  domain : String
  originalUrl : String
  normalizedUrl : String
  analysis : IDN.IDNAnalysis
deriving Repr, DecidableEq

/-- One iteration of the `for (const url of urls)` loop of
`getIDNHomographResults`: analyses with `riskScore > 0.3` set `detected`,
append a domain entry and raise the running maximum risk score. -/
def idnStep (acc : IDNAggregateResult) : Option UrlAnalysis → IDNAggregateResult
  | none => acc
  | some u =>
      if 3/10 < u.analysis.riskScore then
        { acc with
          detected := true,
          domains := acc.domains ++
            [{ domain := u.domain, originalUrl := u.originalUrl,
               normalizedUrl := u.normalizedUrl,
               riskScore := u.analysis.riskScore,
               riskFactors := u.analysis.riskFactors,
               recommendations := u.analysis.recommendations,
               confidence := u.analysis.confidence }],
          riskScore := max acc.riskScore u.analysis.riskScore }
      else acc

/-- The summary block appended to `details` when something was detected
(deduplicated union of the per-domain risk factors, insertion order). -/
def idnAddDetails (r : IDNAggregateResult) : IDNAggregateResult :=
  if r.detected then
    let allRiskFactors := (r.domains.flatMap (·.riskFactors)).foldl
      (fun acc f => if acc.contains f then acc else acc ++ [f]) []
    { r with details := r.details ++
        ["Found " ++ toString r.domains.length ++ " suspicious domain(s)",
         "Highest risk score: " ++ IDN.toFixed1 (r.riskScore * 100) ++ "%"] ++
        allRiskFactors }
  else r

/-- The `SpamScanner.getIDNHomographResults`, starting from the empty result
and folding the per-URL outcomes in order. -/
def getIDNHomographResults (items : List (Option UrlAnalysis)) : IDNAggregateResult :=
  idnAddDetails (items.foldl idnStep { detected := false, domains := [], riskScore := 0, details := [] })

/-- The outputs of the eight concurrently-run detectors, as consumed by the
verdict computation of `scan`.  The findings of the simple detectors carry
payloads irrelevant to the verdict; only their count matters, so they are
kept as the description lists of the source records. -/
structure DetectorOutputs where
  classification : Classification
  phishing : List String
  executables : List String
  macros : List String
  arbitrary : List String
  viruses : List String
  patterns : List PatternFinding
  idnHomographAttack : IDNAggregateResult
deriving Repr, DecidableEq

/-- The `effectivePatterns` of `scan`: in `benign` mode, `file_path`
findings are excluded from the verdict computation. -/
def effectivePatterns (mode : FilePathDetectionMode) (patterns : List PatternFinding) :
    List PatternFinding :=
  if mode = .benign then patterns.filter (fun p => !(p.type == "file_path")) else patterns

/-- The `isSpam` disjunction of `scan`. -/
def computeIsSpam (mode : FilePathDetectionMode) (outs : DetectorOutputs) : Bool :=
  outs.classification.category == "spam" ||
  !outs.phishing.isEmpty ||
  !outs.executables.isEmpty ||
  !outs.macros.isEmpty ||
  !outs.arbitrary.isEmpty ||
  !outs.viruses.isEmpty ||
  !(effectivePatterns mode outs.patterns).isEmpty ||
  outs.idnHomographAttack.detected

/-- The part of the `ScanResult` record relevant to the verdict claims:
the verdict and the reported (unfiltered) detector outputs. -/
structure ScanVerdict where
  isSpam : Bool
  results : DetectorOutputs
deriving Repr, DecidableEq

/-- The construction of the scan result in `scan`: the verdict is computed
over `effectivePatterns`, while `results` reports the detector outputs
unfiltered. -/
def scanVerdict (mode : FilePathDetectionMode) (outs : DetectorOutputs) : ScanVerdict :=
  { isSpam := computeIsSpam mode outs, results := outs }

/-! ## Source resolution of `scan` (`getTokensAndMailFromSource`) -/

/-- The runtime type of the value passed to `scan`: a string, a byte
buffer, or any other value (`null`, a number, ...) — the malformed case. -/
inductive ScanSource
  | str (s : String)
  | buf (bytes : List Nat)
  | other
deriving Repr, DecidableEq

/-- File-system oracle for one path: not an existing file (`existsSync`
false), an existing file whose `readFileSync` throws, or readable content. -/
inductive FileOutcome
  | absent
  | readError
  | content (bytes : List Nat)
deriving Repr, DecidableEq

/-- The input-resolution prefix of `getTokensAndMailFromSource`: a string
naming an existing file is read into a buffer, buffers are decoded to
strings, and anything falsy or non-string is coerced to the empty string —
there is no rejection path for malformed input.  The only statement that
can throw is the unguarded `readFileSync` (for a path that exists but
cannot be read); `simpleParser` failures further down are caught and
replaced by a minimal mail object, so they never reject either. -/
def resolveSourceText (fs : String → FileOutcome) (dec : List Nat → String) :
    ScanSource → Except String String
  | .str s =>
      match fs s with
      | .content bytes => .ok (dec bytes)
      | .readError => .error "file read failed"
      | .absent => .ok s
  | .buf b => .ok (dec b)
  | .other => .ok ""

end Scanner

namespace IDN

open OhMyMsg

/-- The per-step score contributions of one `analyzeComprehensive` pass, in
the order the source accumulates them (empty for the whitelist
short-circuit, which adds no factors). -/
def stepScores (opts : IDNDetectorOptions) (domain : String)
    (context : IDNContext) : List ℚ :=
  if opts.enableWhitelist && isWhitelisted domain then []
  else
    [ (if isIDNDomain domain then 3/10 else 0),
      (analyzeConfusableCharacters domain).score,
      (if opts.enableBrandProtection then (analyzeBrandSimilarity opts domain).score else 0),
      (analyzeScriptMixing domain).score,
      (if opts.enableContextAnalysis then (analyzeContext domain context).score else 0),
      (if jsIncludes domain "xn--" then (analyzePunycode domain).score else 0) ]

end IDN

namespace Snowball

/-- A concrete stemming-table oracle for witnesses: the identity stemmer. -/
def trivialStemEnv : StemEnv :=
  { stem := fun _ w => .ok w }

end Snowball

namespace Scanner

/-- A concrete benign-mode detector-output record for witnesses: a ham
classification, one benign file-path pattern finding, everything else
empty. -/
def demoOutputs : DetectorOutputs :=
  { classification := { category := "ham", probability := 1/2 },
    phishing := [], executables := [], macros := [], arbitrary := [], viruses := [],
    patterns := [{ type := "file_path", path := some "/tmp/a/b",
                   description := "Benign file path detected" }],
    idnHomographAttack := { detected := false, domains := [], riskScore := 0, details := [] } }

end Scanner


namespace IDN

open OhMyMsg

/-- The display-text contribution of `analyzeContext` as the claim states
it, with the truthiness carve-out: +0.3 exactly when a nonempty display
string differing from the domain is supplied. -/
def displayTextBonus (domain : String) (context : IDNContext) : ℚ :=
  match context.displayText with
  | some dt => if dt ≠ "" ∧ dt ≠ domain then 3/10 else 0
  | none => 0

/-- The sender-reputation contribution of `analyzeContext` as the claim
states it, with the truthiness carve-out: +0.2 exactly when a nonzero
reputation below 0.5 is supplied. -/
def senderReputationBonus (context : IDNContext) : ℚ :=
  match context.senderReputation with
  | some r => if r ≠ 0 ∧ r < 1/2 then 1/5 else 0
  | none => 0

/-- The suspicious-pattern contribution of `analyzeContext` as the claim
states it: +0.1 per matching pattern, uncapped, when nonempty message
content is supplied. -/
def patternBonus (context : IDNContext) : ℚ :=
  match context.emailContent with
  | some content =>
      if content ≠ "" then
        (1/10) * ((SUSPICIOUS_PATTERNS.countP
          (fun p => testSuspicious p.1 content) : ℕ) : ℚ)
      else 0
  | none => 0

end IDN

namespace Scanner

/-- Concrete per-URL outcomes for the C10 witness: one skipped URL, one
below the 0.3 threshold, one above it. -/
def demoIdnItems : List (Option UrlAnalysis) :=
  [ none,
    some { domain := "safe.example", originalUrl := "http://safe.example",
           normalizedUrl := "http://safe.example",
           analysis := { domain := "safe.example", isIDN := false, riskScore := 1/10,
                         riskFactors := [], recommendations := [], confidence := 1/10 } },
    some { domain := "bad.example", originalUrl := "http://bad.example",
           normalizedUrl := "http://bad.example",
           analysis := { domain := "bad.example", isIDN := true, riskScore := 7/10,
                         riskFactors := ["Contains non-ASCII characters"],
                         recommendations := [], confidence := 7/10 } } ]

/-- File-system oracle for witnesses: no path resolves to a file. -/
def demoFs : String → FileOutcome :=
  fun _ => FileOutcome.absent

/-- Buffer decoder for witnesses. -/
def demoDec : List ℕ → String :=
  fun _ => ""

end Scanner

namespace IDN

open OhMyMsg

/-! ## Helper lemmas -/

/-- Folding a step that never lowers the score keeps the score bounded
below by the accumulator's. -/
theorem foldl_score_le {α : Type} (f : AnalysisResult → α → AnalysisResult)
    (hf : ∀ acc b, acc.score ≤ (f acc b).score) :
    ∀ (l : List α) (acc : AnalysisResult), acc.score ≤ (l.foldl f acc).score := by
  intro l
  induction l with
  | nil => intro acc; simp
  | cons h t ih => intro acc; exact le_trans (hf acc h) (ih (f acc h))

/-- One brand comparison never lowers the accumulated score. -/
theorem brandStep_score_le (thr : ℚ) (cleanDomain : String) (acc : AnalysisResult)
    (b : String) : acc.score ≤ (brandStep thr cleanDomain acc b).score := by
  simp only [brandStep]
  split
  · exact le_max_left _ _
  · exact le_refl _

/-- The brand-similarity contribution is non-negative. -/
theorem analyzeBrandSimilarity_score_nonneg (opts : IDNDetectorOptions) (domain : String) :
    0 ≤ (analyzeBrandSimilarity opts domain).score := by
  simp only [analyzeBrandSimilarity]
  exact foldl_score_le _ (fun acc b => brandStep_score_le _ _ acc b) POPULAR_BRANDS
    { score := 0, factors := [] }

/-- The confusable-character contribution is non-negative. -/
theorem analyzeConfusableCharacters_score_nonneg (domain : String) :
    0 ≤ (analyzeConfusableCharacters domain).score := by
  simp only [analyzeConfusableCharacters]
  split
  · dsimp only
    refine le_min (mul_nonneg (div_nonneg ?_ ?_) (by norm_num)) (by norm_num)
    · exact Nat.cast_nonneg _
    · exact Nat.cast_nonneg _
  · exact le_refl _

/-- The script-mixing contribution is non-negative. -/
theorem analyzeScriptMixing_score_nonneg (domain : String) :
    0 ≤ (analyzeScriptMixing domain).score := by
  simp only [analyzeScriptMixing]
  split
  · split <;> norm_num
  · exact le_refl _

/-- One suspicious-pattern test never lowers the accumulated score. -/
theorem suspiciousPatternStep_score_le (content : String) (acc : AnalysisResult)
    (pat : List String × String) :
    acc.score ≤ (suspiciousPatternStep content acc pat).score := by
  simp only [suspiciousPatternStep]
  split
  · dsimp only; linarith
  · exact le_refl _

/-- The contextual contribution is non-negative. -/
theorem analyzeContext_score_nonneg (domain : String) (context : IDNContext) :
    0 ≤ (analyzeContext domain context).score := by
  obtain ⟨ec, dt, sr⟩ := context
  simp only [analyzeContext]
  cases ec with
  | none =>
      dsimp only
      split_ifs <;> norm_num
  | some content =>
      have hfold : ∀ acc : AnalysisResult, 0 ≤ acc.score →
          0 ≤ (List.foldl (suspiciousPatternStep content) acc SUSPICIOUS_PATTERNS).score :=
        fun acc h => le_trans h (foldl_score_le _
          (fun a p => suspiciousPatternStep_score_le content a p) SUSPICIOUS_PATTERNS acc)
      dsimp only
      split_ifs
      · exact hfold _ (by norm_num)
      · exact hfold _ (by norm_num)
      · exact hfold _ (by norm_num)
      · exact hfold _ (by norm_num)
      · norm_num
      · norm_num
      · norm_num
      · norm_num

/-- The punycode contribution is non-negative. -/
theorem analyzePunycode_score_nonneg (domain : String) :
    0 ≤ (analyzePunycode domain).score := by
  simp only [analyzePunycode]
  exact mul_nonneg (analyzeConfusableCharacters_score_nonneg _) (by norm_num)

/-- Every per-step contribution of an analysis pass is non-negative. -/
theorem stepScores_nonneg (opts : IDNDetectorOptions) (domain : String)
    (context : IDNContext) : ∀ q ∈ stepScores opts domain context, 0 ≤ q := by
  intro q hq
  simp only [stepScores] at hq
  split at hq
  · simp at hq
  · simp only [List.mem_cons, List.not_mem_nil, or_false] at hq
    rcases hq with rfl | rfl | rfl | rfl | rfl | rfl
    · split <;> norm_num
    · exact analyzeConfusableCharacters_score_nonneg domain
    · split
      · exact analyzeBrandSimilarity_score_nonneg opts domain
      · exact le_refl 0
    · exact analyzeScriptMixing_score_nonneg domain
    · split
      · exact analyzeContext_score_nonneg domain context
      · exact le_refl 0
    · split
      · exact analyzePunycode_score_nonneg domain
      · exact le_refl 0

/-- The final risk score of an analysis pass is the sum of its per-step
contributions. -/
theorem riskScore_eq_sum_stepScores (opts : IDNDetectorOptions) (domain : String)
    (context : IDNContext) :
    (analyzeComprehensive opts domain context).riskScore =
      (stepScores opts domain context).sum := by
  simp only [analyzeComprehensive, stepScores]
  split
  · simp
  · split_ifs <;> simp <;> ring

/-- The risk score of an analysis pass is non-negative. -/
theorem riskScore_nonneg (opts : IDNDetectorOptions) (domain : String)
    (context : IDNContext) : 0 ≤ (analyzeComprehensive opts domain context).riskScore := by
  rw [riskScore_eq_sum_stepScores]
  exact List.sum_nonneg (stepScores_nonneg opts domain context)

/-- Confidence is `min(riskScore, 1)` outside the whitelist short-circuit,
which returns `(0, 1)` directly. -/
theorem confidence_spec (opts : IDNDetectorOptions) (domain : String)
    (context : IDNContext) :
    (analyzeComprehensive opts domain context).confidence =
      min (analyzeComprehensive opts domain context).riskScore 1 ∨
    ((analyzeComprehensive opts domain context).riskScore = 0 ∧
      (analyzeComprehensive opts domain context).confidence = 1) := by
  by_cases hw : (opts.enableWhitelist && isWhitelisted domain) = true
  · right
    simp [analyzeComprehensive, hw]
  · left
    simp only [analyzeComprehensive, Bool.not_eq_true] at hw ⊢
    rw [if_neg (by simp [hw])]

end IDN

/-! ## Claims C2, C3, C4, C5 -/

set_option maxRecDepth 400000 in
/-- C2 (counterexample): the claim asserts `riskScore ≤ 1` for every input,
"the riskScore being clamped to 1.0 at the end of the analysis pass"; but
`analyzeComprehensive` never clamps `riskScore` (only `confidence` is
clamped), and the domain "аpple.com" (Cyrillic а) scores
0.3 (IDN) + 0.8/9 (confusable) + 0.7 (apple brand) + 0.4 (script mixing)
= 67/45 > 1. -/
theorem C2_counterexample :
    1 < (IDN.detectHomographAttack IDN.scannerIDNOptions "аpple.com" {}).riskScore := by
  with_unfolding_all decide

/-- C2 (amended): for every option set, domain and context,
`detectHomographAttack` returns `riskScore ≥ 0` (with no upper bound: the
score is a sum of non-negative step contributions and is not clamped) and
`0 ≤ confidence ≤ 1`; outside the whitelist short-circuit (which returns
riskScore 0 and confidence 1 directly) `confidence = min(riskScore, 1)`. -/
theorem C2_bounds (opts : IDN.IDNDetectorOptions) (domain : String)
    (context : IDN.IDNContext) :
    0 ≤ (IDN.detectHomographAttack opts domain context).riskScore ∧
    0 ≤ (IDN.detectHomographAttack opts domain context).confidence ∧
    (IDN.detectHomographAttack opts domain context).confidence ≤ 1 ∧
    ((IDN.detectHomographAttack opts domain context).confidence =
        min (IDN.detectHomographAttack opts domain context).riskScore 1 ∨
      ((IDN.detectHomographAttack opts domain context).riskScore = 0 ∧
        (IDN.detectHomographAttack opts domain context).confidence = 1)) := by
  simp only [IDN.detectHomographAttack]
  have hrs : 0 ≤ (IDN.analyzeComprehensive opts domain context).riskScore :=
    IDN.riskScore_nonneg opts domain context
  have hc := IDN.confidence_spec opts domain context
  refine ⟨hrs, ?_, ?_, hc⟩
  · rcases hc with h | ⟨_, h⟩
    · rw [h]; exact le_min hrs (by norm_num)
    · rw [h]; norm_num
  · rcases hc with h | ⟨_, h⟩
    · rw [h]; exact min_le_right _ _
    · rw [h]

set_option maxRecDepth 400000 in
/-- C3 (counterexample): the claim asserts that appending a confusable
character never decreases the risk score.  Appending the Cyrillic
confusable "е" to "аpple.com" (score 67/45) yields "аppleе.com" (score
433/300 < 67/45): the confusable ratio rises by 0.16 − 0.8/9, but the
brand-similarity contribution drops from 0.7 (exact "apple" match) to
0.7·(5/6) because the normalized domain becomes "applee". -/
theorem C3_counterexample :
    (IDN.detectHomographAttack IDN.scannerIDNOptions "аppleе.com" {}).riskScore <
      (IDN.detectHomographAttack IDN.scannerIDNOptions "аpple.com" {}).riskScore := by
  with_unfolding_all decide

/-- C3 (amended): within one analysis pass the risk score is the sum of the
per-step contributions and every contribution is non-negative, so the
running total is non-decreasing as steps are applied (partial sums are
monotone); but across domains the claim fails — appending a confusable
character can lower the final score (see the counterexample). -/
theorem C3_step_monotonicity (opts : IDN.IDNDetectorOptions) (domain : String)
    (context : IDN.IDNContext) :
    (∀ q ∈ IDN.stepScores opts domain context, 0 ≤ q) ∧
    (IDN.detectHomographAttack opts domain context).riskScore =
      (IDN.stepScores opts domain context).sum ∧
    (∀ n : ℕ, ((IDN.stepScores opts domain context).take n).sum ≤
      ((IDN.stepScores opts domain context).take (n + 1)).sum) := by
  refine ⟨IDN.stepScores_nonneg opts domain context,
    IDN.riskScore_eq_sum_stepScores opts domain context, ?_⟩
  intro n
  rw [List.take_succ, List.sum_append]
  have h : 0 ≤ ((IDN.stepScores opts domain context)[n]?).toList.sum := by
    cases hgn : (IDN.stepScores opts domain context)[n]? with
    | none => simp
    | some q =>
        simp only [Option.toList_some, List.sum_singleton]
        exact IDN.stepScores_nonneg opts domain context q (List.getElem?_mem hgn)
  linarith

/-- C4: for any whitelist-enabled option set and any whitelisted domain,
`detectHomographAttack` short-circuits for every context: risk score 0,
confidence 1, no risk factors, and only the fixed whitelist
recommendation (no other analysis step ran). -/
theorem C4_whitelist (opts : IDN.IDNDetectorOptions) (domain : String)
    (context : IDN.IDNContext) (hw : opts.enableWhitelist = true)
    (hmem : IDN.isWhitelisted domain = true) :
    (IDN.detectHomographAttack opts domain context).riskScore = 0 ∧
    (IDN.detectHomographAttack opts domain context).confidence = 1 ∧
    (IDN.detectHomographAttack opts domain context).riskFactors = [] ∧
    (IDN.detectHomographAttack opts domain context).recommendations =
      ["Domain is whitelisted as legitimate"] := by
  simp [IDN.detectHomographAttack, IDN.analyzeComprehensive, hw, hmem]

/-- C4 (witness): the whitelisted domain "xn--fiqs8s" with a maximally
suspicious context still comes back with risk 0 and confidence 1. -/
theorem C4_witness :
    (IDN.detectHomographAttack IDN.scannerIDNOptions "xn--fiqs8s"
        { emailContent := some "urgent", displayText := some "china.com",
          senderReputation := some (1/4) }).riskScore = 0 ∧
    (IDN.detectHomographAttack IDN.scannerIDNOptions "xn--fiqs8s"
        { emailContent := some "urgent", displayText := some "china.com",
          senderReputation := some (1/4) }).confidence = 1 ∧
    (IDN.detectHomographAttack IDN.scannerIDNOptions "xn--fiqs8s"
        { emailContent := some "urgent", displayText := some "china.com",
          senderReputation := some (1/4) }).riskFactors = [] ∧
    (IDN.detectHomographAttack IDN.scannerIDNOptions "xn--fiqs8s"
        { emailContent := some "urgent", displayText := some "china.com",
          senderReputation := some (1/4) }).recommendations =
      ["Domain is whitelisted as legitimate"] :=
  C4_whitelist IDN.scannerIDNOptions "xn--fiqs8s"
    { emailContent := some "urgent", displayText := some "china.com",
      senderReputation := some (1/4) } rfl (by decide)

set_option maxRecDepth 400000 in
/-- C5 (code bug evaluation): for the punycode form "xn--80ak6aa92e.com" of
the Cyrillic "apple.com" look-alike, the claim (and the doc comment of
`decodePunycode`) expects the domain to be decoded to Unicode, re-analyzed,
and scored above 0.6 with confusable and "apple" brand factors.  The code's
`decodePunycode` returns `new URL(...).hostname`, which is the ASCII
(punycode) serialization — the input itself — so the re-analysis sees no
confusables: the scan returns riskScore 0.3, not above 0.6, and the risk
factors are only the IDN marker and the (undecoded) punycode echo. -/
theorem C5_punycode_bug :
    (IDN.detectHomographAttack IDN.scannerIDNOptions "xn--80ak6aa92e.com" {}).riskScore = 3/10 ∧
    ¬ (3/5 < (IDN.detectHomographAttack IDN.scannerIDNOptions
        "xn--80ak6aa92e.com" {}).riskScore) ∧
    (IDN.detectHomographAttack IDN.scannerIDNOptions "xn--80ak6aa92e.com" {}).riskFactors =
      ["Contains non-ASCII characters", "Punycode decoded: xn--80ak6aa92e.com"] := by
  with_unfolding_all decide

/-! ## Claim C7 -/

namespace IDN

/-- The suspicious-pattern fold adds exactly 0.1 per matching pattern. -/
theorem foldl_suspicious_score (content : String) :
    ∀ (l : List (List String × String)) (acc : AnalysisResult),
      (l.foldl (suspiciousPatternStep content) acc).score =
        acc.score + (1/10) * ((l.countP (fun p => testSuspicious p.1 content) : ℕ) : ℚ) := by
  intro l
  induction l with
  | nil => intro acc; simp
  | cons h t ih =>
      intro acc
      rw [List.foldl_cons, ih]
      simp only [suspiciousPatternStep, List.countP_cons]
      by_cases hm : testSuspicious h.1 content = true
      · simp only [hm, if_true]
        push_cast
        ring
      · simp only [hm, if_false]
        simp only [Bool.not_eq_true] at hm
        simp [hm]

end IDN

/-- C7 (counterexample): the claim says a supplied sender-reputation score
below 0.5 adds exactly +0.2; but `context.senderReputation &&` treats the
reputation 0 (the worst possible score, below 0.5) as falsy, so nothing is
added: the context score is 0, not 1/5. -/
theorem C7_counterexample :
    (IDN.analyzeContext "example.com" { senderReputation := some 0 }).score = 0 ∧
    (0 : ℚ) ≠ 1/5 := by
  with_unfolding_all decide

/-- C7 (amended): the contextual score decomposes into exactly +0.3 for a
supplied *nonempty* display string differing from the domain, +0.2 for a
supplied *nonzero* sender reputation below 0.5 (zero is treated as absent
by the JS truthiness guard), and +0.1 per matching suspicious pattern in
nonempty message content, uncapped and compounding. -/
theorem C7_context_scoring (domain : String) (context : IDN.IDNContext) :
    (IDN.analyzeContext domain context).score =
      IDN.displayTextBonus domain context + IDN.senderReputationBonus context +
        IDN.patternBonus context := by
  obtain ⟨ec, dt, sr⟩ := context
  simp only [IDN.analyzeContext, IDN.displayTextBonus, IDN.senderReputationBonus,
    IDN.patternBonus]
  cases dt <;> cases sr <;> cases ec <;>
    simp only [Bool.and_eq_true, Bool.not_eq_true', beq_eq_false_iff_ne, ne_eq,
      decide_eq_true_eq] <;>
    split_ifs <;>
    simp_all [IDN.foldl_suspicious_score]

/-! ## Claim C8 -/

namespace Snowball

open OhMyMsg

/-- An unsupported language has no stemmer in the registry. -/
theorem getStemmer_eq_none {language : String}
    (h : isLanguageSupported language = false) : getStemmer language = none := by
  unfold isLanguageSupported at h
  unfold getStemmer
  cases hf : LANGUAGE_MAP.find? (fun p => p.1 = jsToLower language) with
  | none => rfl
  | some p => rw [hf] at h; simp at h

/-- For an unsupported language, `stemWord` with fallback returns the word
unchanged. -/
theorem stemWord_unsupported_fallback (env : StemEnv) (w language : String)
    (h : isLanguageSupported language = false) :
    stemWord env w language true = .ok w := by
  unfold stemWord
  split
  · rfl
  · rw [getStemmer_eq_none h]
    rfl

/-- For an unsupported language in strict mode, `stemWord` passes empty
words through and raises the typed error on any other word. -/
theorem stemWord_unsupported_strict (env : StemEnv) (w language : String)
    (h : isLanguageSupported language = false) :
    stemWord env w language false =
      if w = "" then .ok w else .error (.unavailableAlgorithm language) := by
  unfold stemWord
  split
  · rfl
  · rw [getStemmer_eq_none h]
    rfl

/-- Strict-mode array stemming over an unsupported language: error exactly
when some token is nonempty. -/
theorem mapM_stemWord_strict (env : StemEnv) (language : String)
    (h : isLanguageSupported language = false) :
    ∀ tokens : List String,
      exceptMapList (fun w => stemWord env w language false) tokens =
        if tokens.any (fun w => !(w == "")) then
          Except.error (StemError.unavailableAlgorithm language)
        else Except.ok tokens := by
  intro tokens
  induction tokens with
  | nil => rfl
  | cons w t ih =>
      rw [exceptMapList, stemWord_unsupported_strict env w language h]
      by_cases hw : w = ""
      · subst hw
        by_cases ha : t.any (fun w => !(w == "")) = true
        · simp [ih, ha]
        · simp only [Bool.not_eq_true] at ha
          simp [ih, ha]
      · simp [hw]

/-- Fail-open array stemming over an unsupported language returns the
tokens unchanged. -/
theorem mapM_stemWord_fallback (env : StemEnv) (language : String)
    (h : isLanguageSupported language = false) :
    ∀ tokens : List String,
      exceptMapList (fun w => stemWord env w language true) tokens = Except.ok tokens := by
  intro tokens
  induction tokens with
  | nil => rfl
  | cons w t ih =>
      rw [exceptMapList, stemWord_unsupported_fallback env w language h]
      simp [ih]

end Snowball

/-- C8 (counterexample): the claim says stemming any token sequence for an
unsupported locale with `fallbackToOriginal = false` raises the typed
`UnavailableAlgorithmError`; but `stemWord` returns falsy words before
consulting the registry, so the sequence consisting of one empty token is
returned unchanged instead of raising. -/
theorem C8_counterexample :
    Snowball.stemwordAdvanced Snowball.trivialStemEnv [""]
      { language := "xx", fallbackToOriginal := false } = Except.ok [""] := rfl

/-- C8 (amended): for a locale absent from the registry,
`stemwordAdvanced` with `fallbackToOriginal = true` returns the token
sequence unchanged; with `fallbackToOriginal = false` it raises the typed
`UnavailableAlgorithmError` *provided some token is nonempty* (empty
tokens pass through before the registry lookup); and the scanner-level
`getEnhancedStemming` never raises for an unsupported locale — it returns
the tokens unchanged regardless of either flag, so strict mode never
surfaces the error from the tokenization pipeline. -/
theorem C8_fail_open (env : Snowball.StemEnv) (tokens : List String) (locale : String)
    (h : Snowball.isLanguageSupported locale = false) :
    Snowball.stemwordAdvanced env tokens { language := locale, fallbackToOriginal := true } =
      Except.ok tokens ∧
    Snowball.stemwordAdvanced env tokens { language := locale, fallbackToOriginal := false } =
      (if tokens.any (fun w => !(w == "")) then
        Except.error (Snowball.StemError.unavailableAlgorithm locale)
      else Except.ok tokens) ∧
    (∀ fb adv : Bool, Snowball.getEnhancedStemming env tokens locale fb adv = tokens) := by
  refine ⟨Snowball.mapM_stemWord_fallback env locale h tokens,
    Snowball.mapM_stemWord_strict env locale h tokens, ?_⟩
  intro fb adv
  unfold Snowball.getEnhancedStemming
  split
  · rename_i ht; rw [ht]
  · rw [h]
    simp

/-- C8 (witness): the unsupported locale "xx" on the tokens
["hello", ""]: fail-open passthrough, strict-mode typed error, and
scanner-level passthrough. -/
theorem C8_witness :
    Snowball.stemwordAdvanced Snowball.trivialStemEnv ["hello", ""]
        { language := "xx", fallbackToOriginal := true } = Except.ok ["hello", ""] ∧
    Snowball.stemwordAdvanced Snowball.trivialStemEnv ["hello", ""]
        { language := "xx", fallbackToOriginal := false } =
      Except.error (Snowball.StemError.unavailableAlgorithm "xx") ∧
    Snowball.getEnhancedStemming Snowball.trivialStemEnv ["hello", ""] "xx" false false =
      ["hello", ""] :=
  ⟨(C8_fail_open Snowball.trivialStemEnv ["hello", ""] "xx" rfl).1,
   (C8_fail_open Snowball.trivialStemEnv ["hello", ""] "xx" rfl).2.1,
   (C8_fail_open Snowball.trivialStemEnv ["hello", ""] "xx" rfl).2.2 false false⟩

/-! ## Claim C9 -/

/-- C9: with a fixed nonempty locale and mixed-language detection disabled,
`getTokens` is a pure function of the text, locale, configuration and the
fixed external tables: its output does not depend on the language-identifier
collaborator (the only data-dependent runtime lookup of the pipeline), so
two runs on the same input yield identical token sequences. -/
theorem C9_tokenizer_deterministic (env : Tokenizer.TokenizerEnv)
    (g : String → Option (List String)) (cfg : Tokenizer.TokenizerConfig)
    (text locale : String) (isHtml : Bool)
    (hl : locale ≠ "") (hm : cfg.enableMixedLanguageDetection = false) :
    Tokenizer.getTokens env cfg text locale isHtml =
      Tokenizer.getTokens { env with lande := g } cfg text locale isHtml := by
  have hb : (locale == "") = false := by
    simp [hl]
  simp only [Tokenizer.getTokens, hb, hm, Bool.or_self, Bool.false_or, Bool.false_eq_true,
    if_false]

/-- C9 (witness): the pipeline output on "Hello world" with locale "en" is
unchanged when the language identifier is swapped out. -/
theorem C9_witness :
    Tokenizer.getTokens Tokenizer.idEnv {} "Hello world" "en" false =
      Tokenizer.getTokens { Tokenizer.idEnv with lande := Tokenizer.altLande } {}
        "Hello world" "en" false :=
  C9_tokenizer_deterministic Tokenizer.idEnv Tokenizer.altLande {} "Hello world" "en" false
    (by decide) rfl

/-! ## Claim C10 -/

namespace Scanner

/-- The aggregation-loop invariant of `getIDNHomographResults`: `detected`
tracks nonemptiness of `domains`, every recorded domain exceeds the 0.3
threshold, and `riskScore` is the running maximum (0 when empty). -/
theorem idnFold_invariant (items : List (Option UrlAnalysis)) :
    ∀ acc : IDNAggregateResult,
      (acc.detected = true ↔ acc.domains ≠ []) →
      (∀ d ∈ acc.domains, 3/10 < d.riskScore) →
      acc.riskScore = (acc.domains.map (·.riskScore)).foldl max 0 →
      (((items.foldl idnStep acc).detected = true ↔ (items.foldl idnStep acc).domains ≠ []) ∧
        (∀ d ∈ (items.foldl idnStep acc).domains, 3/10 < d.riskScore) ∧
        (items.foldl idnStep acc).riskScore =
          (((items.foldl idnStep acc).domains).map (·.riskScore)).foldl max 0) := by
  induction items with
  | nil => intro acc h1 h2 h3; exact ⟨h1, h2, h3⟩
  | cons o rest ih =>
      intro acc h1 h2 h3
      rw [List.foldl_cons]
      cases o with
      | none => exact ih acc h1 h2 h3
      | some u =>
          simp only [idnStep]
          split
          · rename_i hu
            refine ih _ ?_ ?_ ?_
            · simp
            · intro d hd
              rcases List.mem_append.mp hd with hd | hd
              · exact h2 d hd
              · rcases List.mem_singleton.mp hd with rfl
                exact hu
            · simp only [List.map_append, List.foldl_append, List.map_cons, List.map_nil,
                List.foldl_cons, List.foldl_nil]
              rw [h3]
          · exact ih acc h1 h2 h3

/-- The `idnAddDetails` only appends to `details`. -/
theorem idnAddDetails_fields (r : IDNAggregateResult) :
    (idnAddDetails r).detected = r.detected ∧ (idnAddDetails r).domains = r.domains ∧
      (idnAddDetails r).riskScore = r.riskScore := by
  unfold idnAddDetails
  split <;> exact ⟨rfl, rfl, rfl⟩

end Scanner

/-- C10: every `idnHomographAttack` sub-result built by
`getIDNHomographResults` satisfies the invariant: `detected` holds exactly
when the `domains` list is nonempty, every listed domain has risk score
strictly above 0.3, and the top-level `riskScore` is the maximum of the
listed scores (0 for the empty list). -/
theorem C10_idn_result_invariant (items : List (Option Scanner.UrlAnalysis)) :
    ((Scanner.getIDNHomographResults items).detected = true ↔
      (Scanner.getIDNHomographResults items).domains ≠ []) ∧
    (∀ d ∈ (Scanner.getIDNHomographResults items).domains, 3/10 < d.riskScore) ∧
    (Scanner.getIDNHomographResults items).riskScore =
      (((Scanner.getIDNHomographResults items).domains).map (·.riskScore)).foldl max 0 := by
  have hbase := Scanner.idnFold_invariant items
    { detected := false, domains := [], riskScore := 0, details := [] }
    (by simp) (by simp) (by simp)
  unfold Scanner.getIDNHomographResults
  obtain ⟨hd, hdom, hrs⟩ := Scanner.idnAddDetails_fields
    (items.foldl Scanner.idnStep { detected := false, domains := [], riskScore := 0, details := [] })
  rw [hd, hdom, hrs]
  exact hbase

/-- C10 (witness): the invariant instantiated on a concrete URL batch (a
skipped URL, a 0.1-risk domain, a 0.7-risk domain). -/
theorem C10_witness :
    ((Scanner.getIDNHomographResults Scanner.demoIdnItems).detected = true ↔
      (Scanner.getIDNHomographResults Scanner.demoIdnItems).domains ≠ []) ∧
    (Scanner.getIDNHomographResults Scanner.demoIdnItems).riskScore =
      (((Scanner.getIDNHomographResults Scanner.demoIdnItems).domains).map
        (·.riskScore)).foldl max 0 :=
  ⟨(C10_idn_result_invariant Scanner.demoIdnItems).1,
   (C10_idn_result_invariant Scanner.demoIdnItems).2.2⟩

/-! ## Claim C1 -/

/-- C1: the scan verdict is spam exactly when the classification says
"spam" or some non-excluded finding category is nonempty — phishing,
executables, macros, arbitrary, viruses, the effective patterns (file-path
findings are excluded from the verdict when `filePathDetection` is
"benign"), or the IDN homograph domain list (given the invariant, proved
as C10, that `detected` tracks its nonemptiness); and the full unfiltered
pattern findings are still reported in the result. -/
theorem C1_verdict_composition (mode : Scanner.FilePathDetectionMode)
    (outs : Scanner.DetectorOutputs)
    (hidn : outs.idnHomographAttack.detected = !outs.idnHomographAttack.domains.isEmpty) :
    ((Scanner.scanVerdict mode outs).isSpam = true ↔
      (outs.classification.category = "spam" ∨ outs.phishing ≠ [] ∨
        outs.executables ≠ [] ∨ outs.macros ≠ [] ∨ outs.arbitrary ≠ [] ∨
        outs.viruses ≠ [] ∨ Scanner.effectivePatterns mode outs.patterns ≠ [] ∨
        outs.idnHomographAttack.domains ≠ [])) ∧
    (Scanner.scanVerdict mode outs).results.patterns = outs.patterns := by
  constructor
  · simp only [Scanner.scanVerdict, Scanner.computeIsSpam, hidn, Bool.or_eq_true,
      beq_iff_eq, Bool.not_eq_true', List.isEmpty_eq_false, ne_eq,
      Bool.not_eq_eq_eq_not, Bool.not_true, List.isEmpty_eq_true]
    tauto
  · rfl

/-- C1 (witness): in benign mode, a ham message whose only finding is a
benign file-path pattern is not spam — the file-path finding is excluded
from the verdict but still reported. -/
theorem C1_witness :
    ((Scanner.scanVerdict Scanner.FilePathDetectionMode.benign Scanner.demoOutputs).isSpam = true ↔
      (Scanner.demoOutputs.classification.category = "spam" ∨
        Scanner.demoOutputs.phishing ≠ [] ∨ Scanner.demoOutputs.executables ≠ [] ∨
        Scanner.demoOutputs.macros ≠ [] ∨ Scanner.demoOutputs.arbitrary ≠ [] ∨
        Scanner.demoOutputs.viruses ≠ [] ∨
        Scanner.effectivePatterns Scanner.FilePathDetectionMode.benign
          Scanner.demoOutputs.patterns ≠ [] ∨
        Scanner.demoOutputs.idnHomographAttack.domains ≠ [])) ∧
    (Scanner.scanVerdict Scanner.FilePathDetectionMode.benign
      Scanner.demoOutputs).results.patterns = Scanner.demoOutputs.patterns :=
  C1_verdict_composition Scanner.FilePathDetectionMode.benign Scanner.demoOutputs rfl

/-! ## Claim C6 -/

/-- C6 (counterexample): the claim says a scan input that is neither a
string, nor a buffer, nor a resolvable file path aborts with a rejection
before any detector runs; but the input-resolution stage of
`getTokensAndMailFromSource` coerces such a value to the empty string and
returns it successfully — the scan then proceeds through all detectors. -/
theorem C6_counterexample :
    Scanner.resolveSourceText Scanner.demoFs Scanner.demoDec Scanner.ScanSource.other =
      Except.ok "" := rfl

/-- C6 (amended): the source-resolution stage of `scan` never rejects
malformed input — a non-string, non-buffer value is coerced to the empty
string and scanned normally (fail-open), and buffers always resolve; the
only rejection this stage can produce is a file-system read error on an
existing path (the unguarded `readFileSync`), not the malformed-input
condition the claim describes. -/
theorem C6_no_reject (fs : String → Scanner.FileOutcome) (dec : List ℕ → String) :
    Scanner.resolveSourceText fs dec Scanner.ScanSource.other = Except.ok "" ∧
    (∀ b, Scanner.resolveSourceText fs dec (Scanner.ScanSource.buf b) = Except.ok (dec b)) ∧
    (∀ s, fs s ≠ Scanner.FileOutcome.readError →
      (Scanner.resolveSourceText fs dec (Scanner.ScanSource.str s)).isOk = true) := by
  refine ⟨rfl, fun b => rfl, fun s hs => ?_⟩
  simp only [Scanner.resolveSourceText]
  cases hfs : fs s with
  | absent => rfl
  | readError => exact absurd hfs hs
  | content bytes => rfl

/-- C6 (witness): a string input naming no existing file resolves to
itself without rejection. -/
theorem C6_witness :
    (Scanner.resolveSourceText Scanner.demoFs Scanner.demoDec
      (Scanner.ScanSource.str "no mail here")).isOk = true :=
  (C6_no_reject Scanner.demoFs Scanner.demoDec).2.2 "no mail here" (by decide)
